import Mathlib

/-!
Shallow embedding of `trendradar/ai/client.py` (class `AIClient`).

The module builds a chat request (payload, endpoint URL, bearer token) from a
config dictionary, environment variables and per-call keyword overrides, then
runs a retry loop around a `curl` subprocess: each attempt either succeeds
(JSON with a usable `choices[0].message.content`), or ends in one of the
exception branches, which sleep with exponential backoff and retry, raising a
`ValueError` once the attempts are exhausted.

The network / subprocess is modelled as an oracle `outcomes : Nat → AttemptOutcome`
giving, for each attempt index, what the `curl` call and JSON parse produced.
The loop returns a `RunResult` recording the Python function's observable
behaviour: the returned string or raised message, the list of `time.sleep`
durations, and the number of attempts (subprocess invocations) performed.
-/

namespace TrendRadar

/-- Python truthiness-based `a or b` on strings: `""` is falsy. -/
def pyOr (a b : String) : String := if a = "" then b else a

/-- Environment variables read by `client.py`; `none` = variable unset. -/
structure Env where
  LLM_API_URL : Option String := none
  AUTH_TOKEN : Option String := none
  AI_API_KEY : Option String := none

/-- The `config` dictionary passed to `AIClient.__init__`; `none` = key absent. -/
structure ConfigDict where
  MODEL : Option String := none
  API_KEY : Option String := none
  API_BASE : Option String := none
  TEMPERATURE : Option ℚ := none
  MAX_TOKENS : Option Int := none
  TIMEOUT : Option Int := none
  NUM_RETRIES : Option Int := none

/-- The constructed client (fields set by `AIClient.__init__`). -/
structure AIClient where
  model : String
  api_key : String
  api_base : String
  temperature : ℚ
  max_tokens : Int
  timeout : Int
  num_retries : Int

/-- `AIClient.__init__`: `config.get(...)` defaults, and
`config.get("API_KEY") or os.environ.get("AI_API_KEY", "")` for the key. -/
def AIClient.init (config : ConfigDict) (env : Env) : AIClient :=
  { model := config.MODEL.getD "deepseek/deepseek-chat"
    api_key := pyOr (config.API_KEY.getD "") (env.AI_API_KEY.getD "")
    api_base := config.API_BASE.getD ""
    temperature := config.TEMPERATURE.getD 1
    max_tokens := config.MAX_TOKENS.getD 5000
    timeout := config.TIMEOUT.getD 120
    num_retries := config.NUM_RETRIES.getD 2 }

/-- Per-call `**kwargs` recognised by `_call_api_with_curl`. -/
structure Kwargs where
  temperature : Option ℚ := none
  max_tokens : Option Int := none
  num_retries : Option Int := none

/-- One message of the conversation. -/
structure ChatMessage where
  role : String
  content : String

/-- The JSON request body built by `_call_api_with_curl`. -/
structure Payload where
  model : String
  messages : List ChatMessage
  temperature : ℚ
  top_p : ℚ
  max_tokens : Int

/-- Lines 84-93 of `client.py`: the payload dictionary. -/
def buildPayload (c : AIClient) (messages : List ChatMessage) (kw : Kwargs) : Payload :=
  let temperature := kw.temperature.getD c.temperature
  let max_tokens := kw.max_tokens.getD c.max_tokens
  { model := "qwen3-max-preview"
    messages := messages
    temperature := temperature
    top_p := 85 / 100
    max_tokens := if max_tokens > 0 then max_tokens else 5000 }

/-- Line 75: `os.getenv("LLM_API_URL", default)`. -/
def resolveApiUrl (env : Env) : String :=
  env.LLM_API_URL.getD "https://ai-llm-gateway.amap.com/open_api/v1/chat"

/-- Lines 77-81:
`os.getenv("AUTH_TOKEN", "1Zx8EvYhC8FsyQXLqwKgXVRD") or os.getenv("AI_API_KEY") or self.api_key`.
`os.getenv` with a default returns the default when the variable is unset;
Python `or` falls through on the empty string (and on `None`, modelled by
`Option.getD _ ""` since both are falsy). -/
def resolveAuthToken (env : Env) (api_key : String) : String :=
  pyOr (env.AUTH_TOKEN.getD "1Zx8EvYhC8FsyQXLqwKgXVRD")
    (pyOr (env.AI_API_KEY.getD "") api_key)

/-- The request the curl command carries (URL, bearer token, JSON body). -/
structure CurlRequest where
  url : String
  auth_token : String
  payload : Payload

/-- One element of `choices` in the parsed response: `{"message": {"content": ...}}`,
with both keys possibly absent. -/
structure Choice where
  message_content : Option String

/-- The parsed JSON response body. `error = some m` models a present `"error"`
key whose `"message"` sub-key is `m` (absent when `m = none`). -/
structure ResponseData where
  error : Option (Option String)
  choices : List Choice

/-- What one loop iteration's `subprocess.run` + `json.loads` produced. -/
inductive AttemptOutcome where
  /-- Outcome `subprocess.CalledProcessError` (non-zero curl exit). -/
  | transportError (returncode : Int) (stderrText stdoutText : String)
  /-- Outcome `subprocess.TimeoutExpired`. -/
  | timedOut
  /-- curl succeeded but `json.loads(result.stdout)` raised `JSONDecodeError`. -/
  | parseFailure (stdoutText : String)
  /-- curl succeeded and the body parsed as JSON. -/
  | parsed (resp : ResponseData)

/-- Line 140's truthiness test, and the value line 143 returns: `some s` iff
`choices` is non-empty and `choices[0].get("message", {}).get("content")` is a
truthy (non-empty) string `s`. -/
def firstContent (resp : ResponseData) : Option String :=
  match resp.choices with
  | [] => none
  | c :: _ =>
    match c.message_content with
    | none => none
    | some s => if s = "" then none else some s

/-- Line 146: message of the `ValueError` raised from the
`subprocess.CalledProcessError` branch. -/
def transportMsg (maxRetries attempt : Nat) (rc : Int) (stderrText stdoutText : String) :
    String :=
  "API请求失败 (尝试 " ++ toString (attempt + 1) ++ "/" ++ toString maxRetries ++
    "): curl返回码 " ++ toString rc ++ ". Stderr: " ++ stderrText ++
    ". Stdout: " ++ stdoutText

/-- Line 152: message of the `subprocess.TimeoutExpired` branch. -/
def timeoutMsg (maxRetries attempt : Nat) : String :=
  "API请求超时 (尝试 " ++ toString (attempt + 1) ++ "/" ++ toString maxRetries ++ ")"

/-- Line 159: message of the `json.JSONDecodeError` branch (`result` is set,
so the raw stdout is interpolated). -/
def parseMsg (maxRetries attempt : Nat) (stdoutText : String) : String :=
  "解析API响应失败 (尝试 " ++ toString (attempt + 1) ++ "/" ++ toString maxRetries ++
    "). 原始响应: " ++ stdoutText

/-- Line 165: message of the generic `except Exception` branch, wrapping `str(e)`. -/
def unknownMsg (maxRetries attempt : Nat) (e : String) : String :=
  "发生未知错误 (尝试 " ++ toString (attempt + 1) ++ "/" ++ toString maxRetries ++
    "): " ++ e

/-- Line 136: the `ValueError` text raised when the error payload survives the
last attempt. The raise happens inside the `try`, so the generic
`except Exception` catches it and re-wraps it via `unknownMsg`. -/
def apiFailMsg (errorMsg : String) : String := "API调用失败: " ++ errorMsg

/-- Line 141: the `ValueError` text for an empty/invalid response. Also raised
inside the `try`, hence caught by the generic `except Exception` handler. -/
def emptyRespMsg : String := "Empty or invalid response from LLM"

/-- Line 171: the defensive post-loop failure. -/
def exhaustedMsg : String := "达到最大重试次数后依然失败"

/-- Observable behaviour of one run of `_call_api_with_curl`'s loop:
the value returned or the `ValueError` message raised, the `time.sleep`
durations in order, and how many attempts (curl invocations) ran. -/
structure RunResult where
  result : Except String String
  sleeps : List Nat
  attempts : Nat

/-- The retry loop of `_call_api_with_curl` (lines 102-171).  `m` is the
Python `max_retries`, `a` the current `attempt`, `d` the current `delay`;
`fuel` counts the iterations left of `for attempt in range(max_retries)` and
is always invoked as `m - a` (so `fuel = 0` is the loop running off the end,
reaching the line-171 raise).  Each entered iteration performs one curl
attempt (`outcomes a`); the branches mirror the Python dispatch:
* parsed with an `"error"` key: retry if `attempt + 1 < max_retries`, else the
  line-136 raise is caught by `except Exception` and re-raised wrapped;
* parsed, no error, usable content: return it;
* parsed, no error, empty/missing content: the line-141 raise is caught by
  `except Exception`, which retries unless this was the last attempt;
* `CalledProcessError` / `TimeoutExpired` / `JSONDecodeError`: raise the
  branch's message on the last attempt, else sleep and retry.
Every retry sleeps `d` and continues with `min (d * 2) 16`. -/
def attemptLoop (outcomes : Nat → AttemptOutcome) (m : Nat) :
    Nat → Nat → Nat → RunResult
  | 0, _, _ => ⟨.error exhaustedMsg, [], 0⟩
  | fuel + 1, a, d =>
    match outcomes a with
    | .parsed resp =>
      match resp.error with
      | some errField =>
        if a + 1 < m then
          let rest := attemptLoop outcomes m fuel (a + 1) (min (d * 2) 16)
          ⟨rest.result, d :: rest.sleeps, rest.attempts + 1⟩
        else
          ⟨.error (unknownMsg m a (apiFailMsg (errField.getD "API返回未知错误"))), [], 1⟩
      | none =>
        match firstContent resp with
        | some s => ⟨.ok s, [], 1⟩
        | none =>
          if a + 1 = m then
            ⟨.error (unknownMsg m a emptyRespMsg), [], 1⟩
          else
            let rest := attemptLoop outcomes m fuel (a + 1) (min (d * 2) 16)
            ⟨rest.result, d :: rest.sleeps, rest.attempts + 1⟩
    | .transportError rc se so =>
      if a + 1 = m then
        ⟨.error (transportMsg m a rc se so), [], 1⟩
      else
        let rest := attemptLoop outcomes m fuel (a + 1) (min (d * 2) 16)
        ⟨rest.result, d :: rest.sleeps, rest.attempts + 1⟩
    | .timedOut =>
      if a + 1 = m then
        ⟨.error (timeoutMsg m a), [], 1⟩
      else
        let rest := attemptLoop outcomes m fuel (a + 1) (min (d * 2) 16)
        ⟨rest.result, d :: rest.sleeps, rest.attempts + 1⟩
    | .parseFailure so =>
      if a + 1 = m then
        ⟨.error (parseMsg m a so), [], 1⟩
      else
        let rest := attemptLoop outcomes m fuel (a + 1) (min (d * 2) 16)
        ⟨rest.result, d :: rest.sleeps, rest.attempts + 1⟩

/-- Method `_call_api_with_curl`: resolves URL/token, builds the payload,
computes `max_retries = kwargs.get("num_retries", self.num_retries) + 1`, and
runs the loop from `attempt = 0`, `delay = 2`.  `Int.toNat` models
`range(max_retries)` being empty for a non-positive bound. -/
def AIClient.callApiWithCurl (c : AIClient) (env : Env) (messages : List ChatMessage)
    (kw : Kwargs) (outcomes : Nat → AttemptOutcome) : CurlRequest × RunResult :=
  let api_url := resolveApiUrl env
  let auth_token := resolveAuthToken env c.api_key
  let payload := buildPayload c messages kw
  let max_retries := kw.num_retries.getD c.num_retries + 1
  (⟨api_url, auth_token, payload⟩,
    attemptLoop outcomes max_retries.toNat max_retries.toNat 0 2)

/-- Method `chat` just delegates to `_call_api_with_curl`. -/
def AIClient.chat (c : AIClient) (env : Env) (messages : List ChatMessage)
    (kw : Kwargs) (outcomes : Nat → AttemptOutcome) : CurlRequest × RunResult :=
  c.callApiWithCurl env messages kw outcomes

/-- Method `validate_config` (lines 173-187): resolves the auth token the
same way as the request path, then unconditionally reports the config valid. -/
def AIClient.validate_config (c : AIClient) (env : Env) : Bool × String :=
  let _auth_token := resolveAuthToken env c.api_key
  (true, "")

/-- An attempt outcome that makes its iteration `return` (line 143): a parsed
body with no `"error"` key and a usable first-choice content. -/
def AttemptOutcome.succeeds : AttemptOutcome → Bool
  | .parsed resp => resp.error.isNone && (firstContent resp).isSome
  | _ => false

/-- The spec's retryable error taxonomy: transport failure, timeout, non-JSON
body, or an explicit upstream error payload (it excludes the empty-response
case, which the spec classifies as non-retryable). -/
def AttemptOutcome.retryableCategory : AttemptOutcome → Bool
  | .parsed resp => resp.error.isSome
  | _ => true

/-- The diagnostic the loop would raise if attempt `a` of `m` were the last
one and produced this (non-returning) outcome. -/
def retryMessage (m a : Nat) : AttemptOutcome → String
  | .transportError rc se so => transportMsg m a rc se so
  | .timedOut => timeoutMsg m a
  | .parseFailure so => parseMsg m a so
  | .parsed resp =>
    match resp.error with
    | some errField => unknownMsg m a (apiFailMsg (errField.getD "API返回未知错误"))
    | none => unknownMsg m a emptyRespMsg

/-- The backoff schedule: `k` sleep durations starting from delay `d`,
doubling with a cap of 16 (`delay = min(delay * 2, max_delay)`). -/
def delaySeq (d : Nat) : Nat → List Nat
  | 0 => []
  | k + 1 => d :: delaySeq (min (d * 2) 16) k

/-! ### String helpers: the diagnostic messages are never empty -/

theorem strData_append (a b : String) : (a ++ b).data = a.data ++ b.data := by
  cases a
  cases b
  rfl

theorem append_ne_empty_left (a b : String) (h : a ≠ "") : a ++ b ≠ "" := by
  intro hc
  apply h
  have hdata := congrArg String.data hc
  rw [strData_append] at hdata
  have hnil : a.data = [] := (List.append_eq_nil.mp hdata).1
  cases a
  cases hnil
  rfl

theorem transportMsg_ne_empty (m a : Nat) (rc : Int) (se so : String) :
    transportMsg m a rc se so ≠ "" := by
  unfold transportMsg
  repeat apply append_ne_empty_left
  decide

theorem timeoutMsg_ne_empty (m a : Nat) : timeoutMsg m a ≠ "" := by
  unfold timeoutMsg
  repeat apply append_ne_empty_left
  decide

theorem parseMsg_ne_empty (m a : Nat) (so : String) : parseMsg m a so ≠ "" := by
  unfold parseMsg
  repeat apply append_ne_empty_left
  decide

theorem unknownMsg_ne_empty (m a : Nat) (e : String) : unknownMsg m a e ≠ "" := by
  unfold unknownMsg
  repeat apply append_ne_empty_left
  decide

theorem exhaustedMsg_ne_empty : exhaustedMsg ≠ "" := by decide

theorem retryMessage_ne_empty (m a : Nat) (o : AttemptOutcome) :
    retryMessage m a o ≠ "" := by
  cases o with
  | transportError rc se so => exact transportMsg_ne_empty m a rc se so
  | timedOut => exact timeoutMsg_ne_empty m a
  | parseFailure so => exact parseMsg_ne_empty m a so
  | parsed resp =>
    cases herr : resp.error with
    | some errField => simpa [retryMessage, herr] using unknownMsg_ne_empty m a _
    | none => simpa [retryMessage, herr] using unknownMsg_ne_empty m a _

/-! ### Backoff schedule facts -/

theorem delaySeq_length (d k : Nat) : (delaySeq d k).length = k := by
  induction k generalizing d with
  | zero => rfl
  | succ k ih => simp [delaySeq, ih]

theorem min_double_pow (d j : Nat) :
    min (min (d * 2) 16 * 2 ^ j) 16 = min (d * (2 ^ j * 2)) 16 := by
  have hpow : 0 < 2 ^ j := pow_pos (by norm_num) j
  rcases Nat.le_total (d * 2) 16 with h | h
  · rw [Nat.min_eq_left h]
    ring_nf
  · rw [Nat.min_eq_right h]
    have h1 : 16 ≤ 16 * 2 ^ j := Nat.le_mul_of_pos_right 16 hpow
    have h2 : 16 ≤ d * (2 ^ j * 2) := by
      calc 16 ≤ d * 2 := h
        _ ≤ d * 2 * 2 ^ j := Nat.le_mul_of_pos_right _ hpow
        _ = d * (2 ^ j * 2) := by ring
    rw [Nat.min_eq_right h1, Nat.min_eq_right h2]

theorem delaySeq_getD (k : Nat) :
    ∀ d j, d ≤ 16 → j < k → (delaySeq d k).getD j 0 = min (d * 2 ^ j) 16 := by
  induction k with
  | zero => intro d j _ hj; omega
  | succ k ih =>
    intro d j hd hj
    cases j with
    | zero =>
      simp [delaySeq, Nat.min_eq_left hd]
    | succ j =>
      have hstep : (delaySeq d (k + 1)).getD (j + 1) 0 =
          (delaySeq (min (d * 2) 16) k).getD j 0 := rfl
      rw [hstep, ih (min (d * 2) 16) j (Nat.min_le_right _ _) (by omega),
        min_double_pow, pow_succ]

/-! ### Single-step lemmas for the retry loop -/

theorem firstContent_ne_empty {resp : ResponseData} {s : String}
    (h : firstContent resp = some s) : s ≠ "" := by
  obtain ⟨err, choices⟩ := resp
  cases choices with
  | nil => simp [firstContent] at h
  | cons c rest =>
    obtain ⟨mc⟩ := c
    cases mc with
    | none => simp [firstContent] at h
    | some s' =>
      by_cases hs : s' = ""
      · simp [firstContent, hs] at h
      · simp only [firstContent, if_neg hs, Option.some.injEq] at h
        exact h ▸ hs

theorem succeeds_iff {o : AttemptOutcome} :
    o.succeeds = true ↔
      ∃ resp s, o = .parsed resp ∧ resp.error = none ∧ firstContent resp = some s := by
  cases o with
  | parsed resp =>
    simp only [AttemptOutcome.succeeds, Bool.and_eq_true, Option.isNone_iff_eq_none,
      Option.isSome_iff_exists]
    constructor
    · rintro ⟨herr, s, hs⟩
      exact ⟨resp, s, rfl, herr, hs⟩
    · rintro ⟨resp', s, heq, herr, hs⟩
      cases heq
      exact ⟨herr, s, hs⟩
  | transportError rc se so => simp [AttemptOutcome.succeeds]
  | timedOut => simp [AttemptOutcome.succeeds]
  | parseFailure so => simp [AttemptOutcome.succeeds]

theorem retryableCategory_not_succeeds {o : AttemptOutcome}
    (h : o.retryableCategory = true) : o.succeeds = false := by
  cases o with
  | parsed resp =>
    simp only [AttemptOutcome.retryableCategory, Option.isSome_iff_exists] at h
    obtain ⟨e, he⟩ := h
    simp [AttemptOutcome.succeeds, he]
  | transportError rc se so => rfl
  | timedOut => rfl
  | parseFailure so => rfl

/-- A non-returning outcome on the last attempt raises its diagnostic. -/
theorem attemptLoop_step_last (o : Nat → AttemptOutcome) (m fuel a d : Nat)
    (hlast : a + 1 = m) (hfail : (o a).succeeds = false) :
    attemptLoop o m (fuel + 1) a d = ⟨.error (retryMessage m a (o a)), [], 1⟩ := by
  cases ho : o a with
  | parsed resp =>
    cases herr : resp.error with
    | some errField =>
      simp [attemptLoop, ho, retryMessage, herr, show ¬(a + 1 < m) by omega]
    | none =>
      cases hfc : firstContent resp with
      | some s =>
        rw [succeeds_iff.mpr ⟨resp, s, ho, herr, hfc⟩] at hfail
        cases hfail
      | none =>
        simp [attemptLoop, ho, retryMessage, herr, hfc, hlast]
  | transportError rc se so => simp [attemptLoop, ho, retryMessage, hlast]
  | timedOut => simp [attemptLoop, ho, retryMessage, hlast]
  | parseFailure so => simp [attemptLoop, ho, retryMessage, hlast]

/-- A non-returning outcome before the last attempt sleeps `d` and retries
with delay `min (d * 2) 16`. -/
theorem attemptLoop_step_retry (o : Nat → AttemptOutcome) (m fuel a d : Nat)
    (hmore : a + 1 < m) (hfail : (o a).succeeds = false) :
    attemptLoop o m (fuel + 1) a d =
      ⟨(attemptLoop o m fuel (a + 1) (min (d * 2) 16)).result,
        d :: (attemptLoop o m fuel (a + 1) (min (d * 2) 16)).sleeps,
        (attemptLoop o m fuel (a + 1) (min (d * 2) 16)).attempts + 1⟩ := by
  cases ho : o a with
  | parsed resp =>
    cases herr : resp.error with
    | some errField => simp [attemptLoop, ho, herr, hmore]
    | none =>
      cases hfc : firstContent resp with
      | some s =>
        rw [succeeds_iff.mpr ⟨resp, s, ho, herr, hfc⟩] at hfail
        cases hfail
      | none =>
        simp [attemptLoop, ho, herr, hfc, show a + 1 ≠ m by omega]
  | transportError rc se so => simp [attemptLoop, ho, show a + 1 ≠ m by omega]
  | timedOut => simp [attemptLoop, ho, show a + 1 ≠ m by omega]
  | parseFailure so => simp [attemptLoop, ho, show a + 1 ≠ m by omega]

/-- A returning outcome makes the iteration return its content at once. -/
theorem attemptLoop_step_ok (o : Nat → AttemptOutcome) (m fuel a d : Nat)
    (resp : ResponseData) (s : String) (ho : o a = .parsed resp)
    (herr : resp.error = none) (hfc : firstContent resp = some s) :
    attemptLoop o m (fuel + 1) a d = ⟨.ok s, [], 1⟩ := by
  simp [attemptLoop, ho, herr, hfc]

/-! ### Whole-loop lemmas -/

/-- When no attempt in `[a, m)` returns, the loop runs all remaining attempts,
sleeps the backoff schedule, and raises the last attempt's diagnostic. -/
theorem attemptLoop_all_retry (o : Nat → AttemptOutcome) (m : Nat) :
    ∀ fuel a d, a + fuel = m → a < m →
      (∀ i, a ≤ i → i < m → (o i).succeeds = false) →
      attemptLoop o m fuel a d =
        ⟨.error (retryMessage m (m - 1) (o (m - 1))), delaySeq d (m - a - 1), m - a⟩ := by
  intro fuel
  induction fuel with
  | zero => intro a d hfa ha _; omega
  | succ fuel ih =>
    intro a d hfa ha hfail
    by_cases hlast : a + 1 = m
    · rw [attemptLoop_step_last o m fuel a d hlast (hfail a le_rfl ha)]
      have h1 : m - 1 = a := by omega
      have h2 : m - a - 1 = 0 := by omega
      have h3 : m - a = 1 := by omega
      rw [h1, h2, h3]
      rfl
    · have hmore : a + 1 < m := by omega
      rw [attemptLoop_step_retry o m fuel a d hmore (hfail a le_rfl ha)]
      have hrest := ih (a + 1) (min (d * 2) 16) (by omega) hmore
        (fun i hi hi' => hfail i (by omega) hi')
      rw [hrest]
      have h2 : m - a - 1 = (m - (a + 1) - 1) + 1 := by omega
      have h3 : m - a = (m - (a + 1)) + 1 := by omega
      rw [h2, h3]
      rfl

/-- Whatever the outcomes, the sleep durations follow the doubling-capped
schedule that starts at the current delay. -/
theorem attemptLoop_sleeps_shape (o : Nat → AttemptOutcome) (m : Nat) :
    ∀ fuel a d, ∃ k, (attemptLoop o m fuel a d).sleeps = delaySeq d k := by
  intro fuel
  induction fuel with
  | zero => intro a d; exact ⟨0, rfl⟩
  | succ fuel ih =>
    intro a d
    cases ho : o a with
    | parsed resp =>
      cases herr : resp.error with
      | some errField =>
        by_cases hmore : a + 1 < m
        · obtain ⟨k, hk⟩ := ih (a + 1) (min (d * 2) 16)
          exact ⟨k + 1, by simp [attemptLoop, ho, herr, hmore, delaySeq, hk]⟩
        · exact ⟨0, by simp [attemptLoop, ho, herr, hmore, delaySeq]⟩
      | none =>
        cases hfc : firstContent resp with
        | some s => exact ⟨0, by simp [attemptLoop, ho, herr, hfc, delaySeq]⟩
        | none =>
          by_cases hlast : a + 1 = m
          · exact ⟨0, by simp [attemptLoop, ho, herr, hfc, hlast, delaySeq]⟩
          · obtain ⟨k, hk⟩ := ih (a + 1) (min (d * 2) 16)
            exact ⟨k + 1, by simp [attemptLoop, ho, herr, hfc, hlast, delaySeq, hk]⟩
    | transportError rc se so =>
      by_cases hlast : a + 1 = m
      · exact ⟨0, by simp [attemptLoop, ho, hlast, delaySeq]⟩
      · obtain ⟨k, hk⟩ := ih (a + 1) (min (d * 2) 16)
        exact ⟨k + 1, by simp [attemptLoop, ho, hlast, delaySeq, hk]⟩
    | timedOut =>
      by_cases hlast : a + 1 = m
      · exact ⟨0, by simp [attemptLoop, ho, hlast, delaySeq]⟩
      · obtain ⟨k, hk⟩ := ih (a + 1) (min (d * 2) 16)
        exact ⟨k + 1, by simp [attemptLoop, ho, hlast, delaySeq, hk]⟩
    | parseFailure so =>
      by_cases hlast : a + 1 = m
      · exact ⟨0, by simp [attemptLoop, ho, hlast, delaySeq]⟩
      · obtain ⟨k, hk⟩ := ih (a + 1) (min (d * 2) 16)
        exact ⟨k + 1, by simp [attemptLoop, ho, hlast, delaySeq, hk]⟩

/-- A returned string always comes, in full, from a parsed in-range response
with no error field and that exact usable first-choice content. -/
theorem attemptLoop_ok_source (o : Nat → AttemptOutcome) (m : Nat) :
    ∀ fuel a d s, (attemptLoop o m fuel a d).result = .ok s →
      ∃ i resp, a ≤ i ∧ i < a + fuel ∧ o i = .parsed resp ∧
        resp.error = none ∧ firstContent resp = some s := by
  intro fuel
  induction fuel with
  | zero => intro a d s h; exact absurd h (by simp [attemptLoop])
  | succ fuel ih =>
    intro a d s h
    cases ho : o a with
    | parsed resp =>
      cases herr : resp.error with
      | some errField =>
        by_cases hmore : a + 1 < m
        · simp only [attemptLoop, ho, herr, if_pos hmore] at h
          obtain ⟨i, resp', hi1, hi2, hio, hie, hif⟩ := ih (a + 1) (min (d * 2) 16) s h
          exact ⟨i, resp', by omega, by omega, hio, hie, hif⟩
        · simp [attemptLoop, ho, herr, hmore] at h
      | none =>
        cases hfc : firstContent resp with
        | some s' =>
          simp only [attemptLoop, ho, herr, hfc, Except.ok.injEq] at h
          exact ⟨a, resp, le_rfl, by omega, ho, herr, h ▸ hfc⟩
        | none =>
          by_cases hlast : a + 1 = m
          · simp [attemptLoop, ho, herr, hfc, hlast] at h
          · simp only [attemptLoop, ho, herr, hfc, if_neg hlast] at h
            obtain ⟨i, resp', hi1, hi2, hio, hie, hif⟩ := ih (a + 1) (min (d * 2) 16) s h
            exact ⟨i, resp', by omega, by omega, hio, hie, hif⟩
    | transportError rc se so =>
      by_cases hlast : a + 1 = m
      · simp [attemptLoop, ho, hlast] at h
      · simp only [attemptLoop, ho, if_neg hlast] at h
        obtain ⟨i, resp', hi1, hi2, hio, hie, hif⟩ := ih (a + 1) (min (d * 2) 16) s h
        exact ⟨i, resp', by omega, by omega, hio, hie, hif⟩
    | timedOut =>
      by_cases hlast : a + 1 = m
      · simp [attemptLoop, ho, hlast] at h
      · simp only [attemptLoop, ho, if_neg hlast] at h
        obtain ⟨i, resp', hi1, hi2, hio, hie, hif⟩ := ih (a + 1) (min (d * 2) 16) s h
        exact ⟨i, resp', by omega, by omega, hio, hie, hif⟩
    | parseFailure so =>
      by_cases hlast : a + 1 = m
      · simp [attemptLoop, ho, hlast] at h
      · simp only [attemptLoop, ho, if_neg hlast] at h
        obtain ⟨i, resp', hi1, hi2, hio, hie, hif⟩ := ih (a + 1) (min (d * 2) 16) s h
        exact ⟨i, resp', by omega, by omega, hio, hie, hif⟩

/-- Every raised diagnostic is a non-empty string. -/
theorem attemptLoop_error_ne_empty (o : Nat → AttemptOutcome) (m : Nat) :
    ∀ fuel a d msg, (attemptLoop o m fuel a d).result = .error msg → msg ≠ "" := by
  intro fuel
  induction fuel with
  | zero =>
    intro a d msg h
    simp only [attemptLoop, Except.error.injEq] at h
    exact h ▸ exhaustedMsg_ne_empty
  | succ fuel ih =>
    intro a d msg h
    cases ho : o a with
    | parsed resp =>
      cases herr : resp.error with
      | some errField =>
        by_cases hmore : a + 1 < m
        · simp only [attemptLoop, ho, herr, if_pos hmore] at h
          exact ih (a + 1) (min (d * 2) 16) msg h
        · simp only [attemptLoop, ho, herr, if_neg hmore, Except.error.injEq] at h
          exact h ▸ unknownMsg_ne_empty m a _
      | none =>
        cases hfc : firstContent resp with
        | some s => simp [attemptLoop, ho, herr, hfc] at h
        | none =>
          by_cases hlast : a + 1 = m
          · simp only [attemptLoop, ho, herr, hfc, if_pos hlast, Except.error.injEq] at h
            exact h ▸ unknownMsg_ne_empty m a _
          · simp only [attemptLoop, ho, herr, hfc, if_neg hlast] at h
            exact ih (a + 1) (min (d * 2) 16) msg h
    | transportError rc se so =>
      by_cases hlast : a + 1 = m
      · simp only [attemptLoop, ho, if_pos hlast, Except.error.injEq] at h
        exact h ▸ transportMsg_ne_empty m a rc se so
      · simp only [attemptLoop, ho, if_neg hlast] at h
        exact ih (a + 1) (min (d * 2) 16) msg h
    | timedOut =>
      by_cases hlast : a + 1 = m
      · simp only [attemptLoop, ho, if_pos hlast, Except.error.injEq] at h
        exact h ▸ timeoutMsg_ne_empty m a
      · simp only [attemptLoop, ho, if_neg hlast] at h
        exact ih (a + 1) (min (d * 2) 16) msg h
    | parseFailure so =>
      by_cases hlast : a + 1 = m
      · simp only [attemptLoop, ho, if_pos hlast, Except.error.injEq] at h
        exact h ▸ parseMsg_ne_empty m a so
      · simp only [attemptLoop, ho, if_neg hlast] at h
        exact ih (a + 1) (min (d * 2) 16) msg h

/-- If attempts `[a, j)` all fail in a non-returning way and attempt `j < m`
returns content `s`, the loop returns `s`. -/
theorem attemptLoop_first_ok (o : Nat → AttemptOutcome) (m : Nat)
    (j : Nat) (resp : ResponseData) (s : String) (hoj : o j = .parsed resp)
    (herr : resp.error = none) (hfc : firstContent resp = some s) :
    ∀ fuel a d, a + fuel = m → a ≤ j → j < m →
      (∀ i, a ≤ i → i < j → (o i).succeeds = false) →
      (attemptLoop o m fuel a d).result = .ok s := by
  intro fuel
  induction fuel with
  | zero => intro a d hfa haj hjm _; omega
  | succ fuel ih =>
    intro a d hfa haj hjm hfail
    by_cases haeq : a = j
    · subst haeq
      rw [attemptLoop_step_ok o m fuel a d resp s hoj herr hfc]
    · have haj' : a < j := lt_of_le_of_ne haj haeq
      have hmore : a + 1 < m := by omega
      rw [attemptLoop_step_retry o m fuel a d hmore (hfail a le_rfl haj')]
      exact ih (a + 1) (min (d * 2) 16) (by omega) (by omega) hjm
        (fun i hi hi' => hfail i (by omega) hi')

/-- Unfolding: the run component of `chat` is the loop with
`max_retries = kwargs.get("num_retries", self.num_retries) + 1`. -/
theorem chat_run (c : AIClient) (env : Env) (messages : List ChatMessage)
    (kw : Kwargs) (o : Nat → AttemptOutcome) :
    (c.chat env messages kw o).2 =
      attemptLoop o (kw.num_retries.getD c.num_retries + 1).toNat
        (kw.num_retries.getD c.num_retries + 1).toNat 0 2 := rfl

/-- Unfolding: the request component of `chat`. -/
theorem chat_request (c : AIClient) (env : Env) (messages : List ChatMessage)
    (kw : Kwargs) (o : Nat → AttemptOutcome) :
    (c.chat env messages kw o).1 =
      ⟨resolveApiUrl env, resolveAuthToken env c.api_key,
        buildPayload c messages kw⟩ := rfl

/-! ### Claims -/

/-- C3: for every effective `numRetries` value `n ≥ 0` (per-call override if
given, else the config), if every attempt's outcome is a retryable-category
error, `chat` performs exactly `n + 1` attempts and then fails: `numRetries`
counts extra attempts beyond the first. -/
theorem C3_retry_attempt_count (c : AIClient) (env : Env)
    (messages : List ChatMessage) (kw : Kwargs) (o : Nat → AttemptOutcome)
    (hn : 0 ≤ kw.num_retries.getD c.num_retries)
    (hretry : ∀ i, (o i).retryableCategory = true) :
    (c.chat env messages kw o).2.attempts =
      (kw.num_retries.getD c.num_retries).toNat + 1 ∧
    ∃ msg, (c.chat env messages kw o).2.result = .error msg := by
  have hall := attemptLoop_all_retry o (kw.num_retries.getD c.num_retries + 1).toNat
    (kw.num_retries.getD c.num_retries + 1).toNat 0 2 (by omega) (by omega)
    (fun i _ _ => retryableCategory_not_succeeds (hretry i))
  rw [chat_run, hall]
  refine ⟨?_, _, rfl⟩
  show (kw.num_retries.getD c.num_retries + 1).toNat - 0 =
    (kw.num_retries.getD c.num_retries).toNat + 1
  omega

theorem C3_retry_attempt_count_witness :
    ((AIClient.init {} {}).chat {} [] {} (fun _ => .timedOut)).2.attempts = 3 ∧
    ∃ msg, ((AIClient.init {} {}).chat {} [] {}
      (fun _ => .timedOut)).2.result = .error msg :=
  C3_retry_attempt_count (AIClient.init {} {}) {} [] {} (fun _ => .timedOut)
    (by decide) (fun _ => rfl)

/-- C4: in every run, the `j`-th backoff sleep (0-based) lasts
`min (2 ^ (j + 1)) 16` seconds: the delays are 2, 4, 8, 16, 16, … -/
theorem C4_backoff_schedule (c : AIClient) (env : Env)
    (messages : List ChatMessage) (kw : Kwargs) (o : Nat → AttemptOutcome)
    (j : Nat) (hj : j < (c.chat env messages kw o).2.sleeps.length) :
    (c.chat env messages kw o).2.sleeps.getD j 0 = min (2 ^ (j + 1)) 16 := by
  rw [chat_run] at hj ⊢
  obtain ⟨k, hk⟩ := attemptLoop_sleeps_shape o
    (kw.num_retries.getD c.num_retries + 1).toNat
    (kw.num_retries.getD c.num_retries + 1).toNat 0 2
  rw [hk] at hj ⊢
  rw [delaySeq_length] at hj
  rw [delaySeq_getD k 2 j (by norm_num) hj, pow_succ, mul_comm]

theorem C4_backoff_schedule_witness :
    0 < ((AIClient.init {} {}).chat {} [] {} (fun _ => .timedOut)).2.sleeps.length ∧
    ((AIClient.init {} {}).chat {} [] {} (fun _ => .timedOut)).2.sleeps.getD 0 0 =
      min (2 ^ 1) 16 :=
  ⟨by decide, C4_backoff_schedule (AIClient.init {} {}) {} [] {}
    (fun _ => .timedOut) 0 (by decide)⟩

/-- C9: `validate_config` returns `(True, "")` for every client instance and
every environment state; it never reports a configuration as invalid and never
produces a non-empty error message. -/
theorem C9_validate_config_always_ok (c : AIClient) (env : Env) :
    c.validate_config env = (true, "") := rfl

/-- C10: if the effective `numRetries` is `-1` or smaller (so the computed
attempt bound is zero or negative), `chat` performs no attempt and no sleep,
and raises the final "max retries exhausted" failure from the post-loop
path. -/
theorem C10_nonpositive_attempts (c : AIClient) (env : Env)
    (messages : List ChatMessage) (kw : Kwargs) (o : Nat → AttemptOutcome)
    (hn : kw.num_retries.getD c.num_retries ≤ -1) :
    (c.chat env messages kw o).2.attempts = 0 ∧
    (c.chat env messages kw o).2.sleeps = [] ∧
    (c.chat env messages kw o).2.result = .error exhaustedMsg := by
  have hM : (kw.num_retries.getD c.num_retries + 1).toNat = 0 := by omega
  rw [chat_run, hM]
  exact ⟨rfl, rfl, rfl⟩

theorem C10_nonpositive_attempts_witness :
    ((AIClient.init {} {}).chat {} [] {num_retries := some (-1)}
      (fun _ => .timedOut)).2.attempts = 0 ∧
    ((AIClient.init {} {}).chat {} [] {num_retries := some (-1)}
      (fun _ => .timedOut)).2.sleeps = [] ∧
    ((AIClient.init {} {}).chat {} [] {num_retries := some (-1)}
      (fun _ => .timedOut)).2.result = .error exhaustedMsg :=
  C10_nonpositive_attempts (AIClient.init {} {}) {} [] {num_retries := some (-1)}
    (fun _ => .timedOut) (by decide)

/-- C5: for every input and every sequence of attempt outcomes, `chat` either
returns the full extracted reply text of some in-range parsed error-free
response (never a partial or degraded value, and never an empty string), or
fails with a single non-empty human-readable diagnostic; no failure is
swallowed. -/
theorem C5_total_outcome (c : AIClient) (env : Env) (messages : List ChatMessage)
    (kw : Kwargs) (o : Nat → AttemptOutcome) :
    (∃ s, (c.chat env messages kw o).2.result = .ok s ∧ s ≠ "" ∧
      ∃ i resp, i < (kw.num_retries.getD c.num_retries + 1).toNat ∧
        o i = .parsed resp ∧ resp.error = none ∧ firstContent resp = some s) ∨
    (∃ msg, (c.chat env messages kw o).2.result = .error msg ∧ msg ≠ "") := by
  rw [chat_run]
  cases hres : (attemptLoop o (kw.num_retries.getD c.num_retries + 1).toNat
      (kw.num_retries.getD c.num_retries + 1).toNat 0 2).result with
  | ok s =>
    left
    obtain ⟨i, resp, _, hi2, hio, hie, hif⟩ :=
      attemptLoop_ok_source o (kw.num_retries.getD c.num_retries + 1).toNat
        (kw.num_retries.getD c.num_retries + 1).toNat 0 2 s hres
    exact ⟨s, rfl, firstContent_ne_empty hif, i, resp, by omega, hio, hie, hif⟩
  | error msg =>
    right
    exact ⟨msg, rfl, attemptLoop_error_ne_empty o _ _ 0 2 msg hres⟩

/-- C6: if the attempts before `j` do not return, and attempt `j` (within the
attempt budget) yields a well-formed JSON response with no error field and a
non-empty first-choice content `s`, then `chat` returns exactly `s`, and the
returned string is non-empty. -/
theorem C6_first_good_content (c : AIClient) (env : Env)
    (messages : List ChatMessage) (kw : Kwargs) (o : Nat → AttemptOutcome)
    (j : Nat) (resp : ResponseData) (s : String)
    (hoj : o j = .parsed resp) (herr : resp.error = none)
    (hfc : firstContent resp = some s)
    (hj : j < (kw.num_retries.getD c.num_retries + 1).toNat)
    (hbefore : ∀ i, i < j → (o i).succeeds = false) :
    (c.chat env messages kw o).2.result = .ok s ∧ s ≠ "" := by
  refine ⟨?_, firstContent_ne_empty hfc⟩
  rw [chat_run]
  exact attemptLoop_first_ok o (kw.num_retries.getD c.num_retries + 1).toNat
    j resp s hoj herr hfc (kw.num_retries.getD c.num_retries + 1).toNat 0 2
    (by omega) (Nat.zero_le j) hj (fun i _ hij => hbefore i hij)

theorem C6_first_good_content_witness :
    ((AIClient.init {} {}).chat {} [⟨"user", "hello"⟩] {}
      (fun _ => .parsed ⟨none, [⟨some "hi there"⟩]⟩)).2.result = .ok "hi there" ∧
    ("hi there" : String) ≠ "" :=
  C6_first_good_content (AIClient.init {} {}) {} [⟨"user", "hello"⟩] {}
    (fun _ => .parsed ⟨none, [⟨some "hi there"⟩]⟩) 0
    ⟨none, [⟨some "hi there"⟩]⟩ "hi there" rfl rfl (by decide) (by decide)
    (fun i h => absurd h (Nat.not_lt_zero i))

/-- C7: the request payload uses the fixed model string (overriding
`config.model`), the constant `top_p = 0.85`, the given messages, the per-call
temperature override if given (else the config value), and a `max_tokens`
equal to the effective value when strictly positive and 5000 when zero or
negative. -/
theorem C7_payload_fields (c : AIClient) (env : Env) (messages : List ChatMessage)
    (kw : Kwargs) (o : Nat → AttemptOutcome) :
    (c.chat env messages kw o).1.payload.model = "qwen3-max-preview" ∧
    (c.chat env messages kw o).1.payload.top_p = 85 / 100 ∧
    (c.chat env messages kw o).1.payload.messages = messages ∧
    (c.chat env messages kw o).1.payload.temperature =
      kw.temperature.getD c.temperature ∧
    (0 < kw.max_tokens.getD c.max_tokens →
      (c.chat env messages kw o).1.payload.max_tokens =
        kw.max_tokens.getD c.max_tokens) ∧
    (kw.max_tokens.getD c.max_tokens ≤ 0 →
      (c.chat env messages kw o).1.payload.max_tokens = 5000) := by
  refine ⟨rfl, rfl, rfl, rfl, ?_, ?_⟩
  · intro h
    show (buildPayload c messages kw).max_tokens = _
    unfold buildPayload
    simp only
    rw [if_pos h]
  · intro h
    show (buildPayload c messages kw).max_tokens = _
    unfold buildPayload
    simp only
    rw [if_neg (by omega)]

theorem C7_payload_fields_witness :
    ((AIClient.init {} {}).chat {} [⟨"user", "hello"⟩] {max_tokens := some 64}
      (fun _ => .timedOut)).1.payload.max_tokens = 64 ∧
    ((AIClient.init {} {}).chat {} [⟨"user", "hello"⟩] {max_tokens := some (-3)}
      (fun _ => .timedOut)).1.payload.max_tokens = 5000 :=
  ⟨(C7_payload_fields (AIClient.init {} {}) {} [⟨"user", "hello"⟩]
      {max_tokens := some 64} (fun _ => .timedOut)).2.2.2.2.1 (by decide),
   (C7_payload_fields (AIClient.init {} {}) {} [⟨"user", "hello"⟩]
      {max_tokens := some (-3)} (fun _ => .timedOut)).2.2.2.2.2 (by decide)⟩

/-- C8: when the response body fails to parse as JSON on every attempt, the
malformed response is retryable: `chat` runs through all `n + 1` attempts with
`n` backoff sleeps and then fails carrying the parse-failure diagnostic of the
last attempt. -/
theorem C8_nonjson_is_retryable (c : AIClient) (env : Env)
    (messages : List ChatMessage) (kw : Kwargs) (o : Nat → AttemptOutcome)
    (body : Nat → String)
    (hn : 0 ≤ kw.num_retries.getD c.num_retries)
    (hbody : ∀ i, o i = .parseFailure (body i)) :
    (c.chat env messages kw o).2.attempts =
      (kw.num_retries.getD c.num_retries).toNat + 1 ∧
    (c.chat env messages kw o).2.result =
      .error (parseMsg ((kw.num_retries.getD c.num_retries).toNat + 1)
        (kw.num_retries.getD c.num_retries).toNat
        (body (kw.num_retries.getD c.num_retries).toNat)) ∧
    (c.chat env messages kw o).2.sleeps.length =
      (kw.num_retries.getD c.num_retries).toNat := by
  have hM : (kw.num_retries.getD c.num_retries + 1).toNat =
      (kw.num_retries.getD c.num_retries).toNat + 1 := by omega
  have hall := attemptLoop_all_retry o (kw.num_retries.getD c.num_retries + 1).toNat
    (kw.num_retries.getD c.num_retries + 1).toNat 0 2 (by omega) (by omega)
    (fun i _ _ => by rw [hbody i]; rfl)
  rw [chat_run, hall, hM]
  refine ⟨rfl, ?_, ?_⟩
  · show Except.error (retryMessage _ _ (o _)) = _
    rw [hbody]
    rfl
  · show (delaySeq 2 ((kw.num_retries.getD c.num_retries).toNat + 1 - 0 - 1)).length = _
    rw [delaySeq_length]
    omega

theorem C8_nonjson_is_retryable_witness :
    ((AIClient.init {} {}).chat {} [] {}
      (fun _ => .parseFailure "<html>oops")).2.attempts = 3 ∧
    ((AIClient.init {} {}).chat {} [] {}
      (fun _ => .parseFailure "<html>oops")).2.result =
      .error (parseMsg 3 2 "<html>oops") ∧
    ((AIClient.init {} {}).chat {} [] {}
      (fun _ => .parseFailure "<html>oops")).2.sleeps.length = 2 :=
  C8_nonjson_is_retryable (AIClient.init {} {}) {} [] {}
    (fun _ => .parseFailure "<html>oops") (fun _ => "<html>oops")
    (by decide) (fun _ => rfl)

/-- C1: counterexample. With every attempt returning well-formed JSON whose
`choices` list is empty (no error field) and the default `numRetries = 2`,
`chat` does NOT fail immediately after the first attempt: it performs 3
attempts, sleeps twice (2 s then 4 s), and only then fails — with the
empty-response text wrapped by the generic exception handler. The line-141
raise sits inside the `try`, so `except Exception` catches and retries it. -/
theorem C1_empty_response_retried_cx :
    ((AIClient.init {} {}).chat {} [⟨"user", "hello"⟩] {}
      (fun _ => .parsed ⟨none, []⟩)).2.attempts = 3 ∧
    ((AIClient.init {} {}).chat {} [⟨"user", "hello"⟩] {}
      (fun _ => .parsed ⟨none, []⟩)).2.sleeps = [2, 4] ∧
    ((AIClient.init {} {}).chat {} [⟨"user", "hello"⟩] {}
      (fun _ => .parsed ⟨none, []⟩)).2.result =
      .error (unknownMsg 3 2 emptyRespMsg) :=
  ⟨rfl, rfl, rfl⟩

/-- C1 (amended): when the HTTP attempt succeeds and the response parses as
JSON without an error field but `choices` is empty or the first choice's
content is empty or missing, the raised "empty response" `ValueError` is
caught by the generic exception handler and treated as retryable: with
effective `numRetries = n ≥ 0` and that outcome on every attempt, `chat`
performs all `n + 1` attempts with `n` backoff sleeps and then fails with the
wrapped empty-response diagnostic. -/
theorem C1_empty_response_retried (c : AIClient) (env : Env)
    (messages : List ChatMessage) (kw : Kwargs) (o : Nat → AttemptOutcome)
    (hn : 0 ≤ kw.num_retries.getD c.num_retries)
    (hempty : ∀ i, ∃ resp, o i = .parsed resp ∧ resp.error = none ∧
      firstContent resp = none) :
    (c.chat env messages kw o).2.attempts =
      (kw.num_retries.getD c.num_retries).toNat + 1 ∧
    (c.chat env messages kw o).2.result =
      .error (unknownMsg ((kw.num_retries.getD c.num_retries).toNat + 1)
        (kw.num_retries.getD c.num_retries).toNat emptyRespMsg) ∧
    (c.chat env messages kw o).2.sleeps.length =
      (kw.num_retries.getD c.num_retries).toNat := by
  have hfail : ∀ i, (o i).succeeds = false := by
    intro i
    obtain ⟨resp, ho, he, hf⟩ := hempty i
    cases hsucc : (o i).succeeds
    · rfl
    · obtain ⟨resp', s, ho', he', hf'⟩ := succeeds_iff.mp hsucc
      rw [ho] at ho'
      cases ho'
      rw [hf] at hf'
      cases hf'
  have hM : (kw.num_retries.getD c.num_retries + 1).toNat =
      (kw.num_retries.getD c.num_retries).toNat + 1 := by omega
  have hall := attemptLoop_all_retry o (kw.num_retries.getD c.num_retries + 1).toNat
    (kw.num_retries.getD c.num_retries + 1).toNat 0 2 (by omega) (by omega)
    (fun i _ _ => hfail i)
  rw [chat_run, hall, hM]
  obtain ⟨resp, ho, he, hf⟩ := hempty ((kw.num_retries.getD c.num_retries).toNat + 1 - 1)
  refine ⟨rfl, ?_, ?_⟩
  · show Except.error (retryMessage _ _ (o _)) = _
    rw [ho]
    simp only [retryMessage, he]
    rfl
  · show (delaySeq 2 ((kw.num_retries.getD c.num_retries).toNat + 1 - 0 - 1)).length = _
    rw [delaySeq_length]
    omega

theorem C1_empty_response_retried_witness :
    ((AIClient.init {} {}).chat {} [⟨"user", "hello"⟩] {}
      (fun _ => .parsed ⟨none, [⟨some ""⟩]⟩)).2.attempts = 3 ∧
    ((AIClient.init {} {}).chat {} [⟨"user", "hello"⟩] {}
      (fun _ => .parsed ⟨none, [⟨some ""⟩]⟩)).2.result =
      .error (unknownMsg 3 2 emptyRespMsg) ∧
    ((AIClient.init {} {}).chat {} [⟨"user", "hello"⟩] {}
      (fun _ => .parsed ⟨none, [⟨some ""⟩]⟩)).2.sleeps.length = 2 :=
  C1_empty_response_retried (AIClient.init {} {}) {} [⟨"user", "hello"⟩] {}
    (fun _ => .parsed ⟨none, [⟨some ""⟩]⟩) (by decide)
    (fun _ => ⟨⟨none, [⟨some ""⟩]⟩, rfl, rfl, by decide⟩)

/-- C2: counterexample. With `AUTH_TOKEN` unset (removed) and `AI_API_KEY`
set, the request does NOT use the `AI_API_KEY` value: `os.getenv("AUTH_TOKEN",
default)` returns the truthy hardcoded default, which short-circuits the `or`
chain, so the secondary variable and the config key are never consulted. -/
theorem C2_auth_precedence_cx :
    ((AIClient.init {API_KEY := some "config-key"} {}).chat
      ⟨none, none, some "secret-from-env"⟩ [] {}
      (fun _ => .timedOut)).1.auth_token = "1Zx8EvYhC8FsyQXLqwKgXVRD" ∧
    ("1Zx8EvYhC8FsyQXLqwKgXVRD" : String) ≠ "secret-from-env" :=
  ⟨rfl, by decide⟩

/-- C2 (amended): the auth token follows the chain
`AUTH_TOKEN-with-default or AI_API_KEY or config key`: a set, non-empty
`AUTH_TOKEN` wins; with `AUTH_TOKEN` unset the chain stops at the hardcoded
default token; only when `AUTH_TOKEN` is set to the empty string does it fall
back to a non-empty `AI_API_KEY`, and then to the constructed config's stored
key. -/
theorem C2_auth_precedence (c : AIClient) (env : Env)
    (messages : List ChatMessage) (kw : Kwargs) (o : Nat → AttemptOutcome) :
    (∀ t, env.AUTH_TOKEN = some t → t ≠ "" →
      (c.chat env messages kw o).1.auth_token = t) ∧
    (env.AUTH_TOKEN = none →
      (c.chat env messages kw o).1.auth_token = "1Zx8EvYhC8FsyQXLqwKgXVRD") ∧
    (∀ u, env.AUTH_TOKEN = some "" → env.AI_API_KEY = some u → u ≠ "" →
      (c.chat env messages kw o).1.auth_token = u) ∧
    (env.AUTH_TOKEN = some "" →
      (env.AI_API_KEY = none ∨ env.AI_API_KEY = some "") →
      (c.chat env messages kw o).1.auth_token = c.api_key) := by
  have hdef : (c.chat env messages kw o).1.auth_token =
      resolveAuthToken env c.api_key := rfl
  refine ⟨?_, ?_, ?_, ?_⟩
  · intro t ht hne
    rw [hdef]
    unfold resolveAuthToken
    rw [ht]
    show pyOr t _ = t
    unfold pyOr
    rw [if_neg hne]
  · intro ht
    rw [hdef]
    unfold resolveAuthToken
    rw [ht]
    rfl
  · intro u ht hu hune
    rw [hdef]
    unfold resolveAuthToken
    rw [ht, hu]
    show pyOr "" (pyOr u c.api_key) = u
    unfold pyOr
    rw [if_pos rfl, if_neg hune]
  · intro ht hu
    rw [hdef]
    unfold resolveAuthToken
    rw [ht]
    rcases hu with hu | hu <;> rw [hu] <;> rfl

theorem C2_auth_precedence_witness :
    ((AIClient.init {} {}).chat ⟨none, some "tok-a", some "sk"⟩ [] {}
      (fun _ => .timedOut)).1.auth_token = "tok-a" ∧
    ((AIClient.init {} {}).chat ⟨none, none, some "sk"⟩ [] {}
      (fun _ => .timedOut)).1.auth_token = "1Zx8EvYhC8FsyQXLqwKgXVRD" ∧
    ((AIClient.init {} {}).chat ⟨none, some "", some "sk"⟩ [] {}
      (fun _ => .timedOut)).1.auth_token = "sk" ∧
    ((AIClient.init {API_KEY := some "ck"} {}).chat ⟨none, some "", none⟩ [] {}
      (fun _ => .timedOut)).1.auth_token = "ck" :=
  ⟨(C2_auth_precedence (AIClient.init {} {}) ⟨none, some "tok-a", some "sk"⟩ [] {}
      (fun _ => .timedOut)).1 "tok-a" rfl (by decide),
   (C2_auth_precedence (AIClient.init {} {}) ⟨none, none, some "sk"⟩ [] {}
      (fun _ => .timedOut)).2.1 rfl,
   (C2_auth_precedence (AIClient.init {} {}) ⟨none, some "", some "sk"⟩ [] {}
      (fun _ => .timedOut)).2.2.1 "sk" rfl rfl (by decide),
   (C2_auth_precedence (AIClient.init {API_KEY := some "ck"} {})
      ⟨none, some "", none⟩ [] {} (fun _ => .timedOut)).2.2.2 rfl (Or.inl rfl)⟩

end TrendRadar
